import Mathlib

/-!
Shallow embedding of the lifetime tax model backend (`src/backend/main.py`).

Monetary amounts and rates are modelled as exact rationals (`ℚ`); calendar
years, ages and year counts as integers (`ℤ`).  Python's `x ** n` with an
integer exponent is modelled with `zpow`; empty `range` loops become empty
list products.  The source rounds monetary fields with `round(...)` only at
the output-record boundary; the embedding keeps the full-precision values
that the computation itself produces and threads forward.
-/

/-! ## Parameter tables (module-level constants of `main.py`) -/

def CPI_LONG_TERM : ℚ := 0.0200
def RPI_LONG_TERM : ℚ := 0.0239

def PERSONAL_ALLOWANCE : ℚ := 12570
def BASIC_RATE_THRESHOLD : ℚ := 50270
def HIGHER_RATE_THRESHOLD : ℚ := 125140
def BASIC_RATE : ℚ := 0.20
def HIGHER_RATE : ℚ := 0.40
def ADDITIONAL_RATE : ℚ := 0.45
def PA_TAPER_THRESHOLD : ℚ := 100000
def PA_TAPER_RATE : ℚ := 0.50

def NI_PRIMARY_THRESHOLD : ℚ := 12570
def NI_UPPER_EARNINGS_LIMIT : ℚ := 50270
def NI_MAIN_RATE : ℚ := 0.08
def NI_HIGHER_RATE : ℚ := 0.02

def STUDENT_LOAN_THRESHOLD_PLAN2 : ℚ := 27295
def STUDENT_LOAN_RATE : ℚ := 0.09
def STUDENT_LOAN_FORGIVENESS_YEARS : ℤ := 30
def STUDENT_LOAN_INTEREST_ADDITIONAL_RATE : ℚ := 0.03

def FUEL_DUTY_RPI_LONG_TERM : ℚ := 0.029
def AVG_PETROL_PRICE_PER_LITRE : ℚ := 1.40

def DIVIDEND_ALLOWANCE : ℚ := 500
def SAVINGS_ALLOWANCE_BASIC : ℚ := 1000
def SAVINGS_ALLOWANCE_HIGHER : ℚ := 500

def STATE_PENSION_LONG_TERM_GROWTH : ℚ := 0.04

def UC_CHILD_ELEMENT_ANNUAL_2025 : ℚ := 3513.72
def UC_CHILD_ELEMENT_MAX_AGE : ℤ := 18
def UC_TWO_CHILD_LIMIT : ℕ := 2
def UC_STANDARD_ALLOWANCE_SINGLE_PARENT_2025 : ℚ := 400.14 * 12
def UC_TAPER_RATE : ℚ := 0.55
def UC_WORK_ALLOWANCE_WITH_HOUSING_2025 : ℚ := 404 * 12
def UC_WORK_ALLOWANCE_NO_HOUSING_2025 : ℚ := 673 * 12

def PEAK_EARNINGS_MULTIPLIER : ℚ := 2.20

/-- `CPI_FORECASTS.get(year, CPI_LONG_TERM)` (`get_cpi` in `main.py`). -/
def get_cpi (year : ℤ) : ℚ :=
  if year = 2024 then 0.0233
  else if year = 2025 then 0.0318
  else if year = 2026 then 0.0193
  else if year = 2027 then 0.0200
  else if year = 2028 then 0.0200
  else if year = 2029 then 0.0200
  else CPI_LONG_TERM

/-- `RPI_FORECASTS.get(year, RPI_LONG_TERM)` (`get_rpi` in `main.py`). -/
def get_rpi (year : ℤ) : ℚ :=
  if year = 2024 then 0.0331
  else if year = 2025 then 0.0416
  else if year = 2026 then 0.0308
  else if year = 2027 then 0.0300
  else if year = 2028 then 0.0283
  else if year = 2029 then 0.0283
  else RPI_LONG_TERM

/-- `get_cumulative_inflation`: product of `(1 + rate y)` for
`y ∈ [base_year, target_year)`; the empty range (also when
`target_year < base_year`, as in Python's `range`) gives `1`. -/
def get_cumulative_inflation (base_year target_year : ℤ) (use_rpi : Bool) : ℚ :=
  ((List.range (target_year - base_year).toNat).map
    (fun i => 1 + (if use_rpi then get_rpi (base_year + i) else get_cpi (base_year + i)))).prod

/-- `get_state_pension`: the OBR forecast table for 2024–2027, then growth at
the long-term rate from the last forecast year.  For years before 2024 the
Python loop `range(2027, year)` is empty, so the 2027 value is returned. -/
def get_state_pension (year : ℤ) : ℚ :=
  if year = 2024 then 11541.90
  else if year = 2025 then 12016.75
  else if year = 2026 then 12569.85
  else if year = 2027 then 12885.50
  else 12885.50 * (1 + STATE_PENSION_LONG_TERM_GROWTH) ^ (year - 2027).toNat

/-! ## Income tax and national insurance -/

/-- `calculate_income_tax` from `main.py`: allowance taper above
`PA_TAPER_THRESHOLD`, then three bands (basic / higher / additional). -/
def calculate_income_tax (gross_income : ℚ) : ℚ :=
  let pa :=
    if gross_income > PA_TAPER_THRESHOLD then
      PERSONAL_ALLOWANCE -
        min PERSONAL_ALLOWANCE ((gross_income - PA_TAPER_THRESHOLD) * PA_TAPER_RATE)
    else PERSONAL_ALLOWANCE
  let taxable0 := max 0 (gross_income - pa)
  let basic_band := if taxable0 > 0 then min taxable0 (BASIC_RATE_THRESHOLD - PERSONAL_ALLOWANCE) else 0
  let tax1 := basic_band * BASIC_RATE
  let taxable1 := taxable0 - basic_band
  let higher_band := if taxable1 > 0 then min taxable1 (HIGHER_RATE_THRESHOLD - BASIC_RATE_THRESHOLD) else 0
  let tax2 := tax1 + higher_band * HIGHER_RATE
  let taxable2 := taxable1 - higher_band
  if taxable2 > 0 then tax2 + taxable2 * ADDITIONAL_RATE else tax2

/-- `calculate_ni` from `main.py`. -/
def calculate_ni (gross_income : ℚ) : ℚ :=
  if gross_income ≤ NI_PRIMARY_THRESHOLD then 0
  else
    min (gross_income - NI_PRIMARY_THRESHOLD) (NI_UPPER_EARNINGS_LIMIT - NI_PRIMARY_THRESHOLD)
        * NI_MAIN_RATE
      + (if gross_income > NI_UPPER_EARNINGS_LIMIT then
          (gross_income - NI_UPPER_EARNINGS_LIMIT) * NI_HIGHER_RATE
        else 0)

/-! ## Student loan -/

/-- Lower interest threshold (`STUDENT_LOAN_INTEREST_LOWER_THRESHOLDS` plus the
lookup logic of `get_student_loan_interest_thresholds`): the table covers
2020–2029; years before the table use the earliest value; years after it are
RPI-uprated from the 2029 value. -/
def student_loan_interest_lower_threshold (year : ℤ) : ℚ :=
  if year = 2020 then 26575
  else if year = 2021 then 27295
  else if year = 2022 then 27295
  else if year = 2023 then 27660
  else if year = 2024 then 27660
  else if year = 2025 then 28470
  else if year = 2026 then 29385
  else if year = 2027 then 29385
  else if year = 2028 then 29385
  else if year = 2029 then 29385
  else if year < 2020 then 26575
  else 29385 * get_cumulative_inflation 2029 year true

/-- Upper interest threshold (`STUDENT_LOAN_INTEREST_UPPER_THRESHOLDS` plus the
lookup logic of `get_student_loan_interest_thresholds`). -/
def student_loan_interest_upper_threshold (year : ℤ) : ℚ :=
  if year = 2020 then 47835
  else if year = 2021 then 49130
  else if year = 2022 then 49130
  else if year = 2023 then 49585
  else if year = 2024 then 49585
  else if year = 2025 then 51245
  else if year = 2026 then 52885
  else if year = 2027 then 52885
  else if year = 2028 then 52885
  else if year = 2029 then 52885
  else if year < 2020 then 47835
  else 52885 * get_cumulative_inflation 2029 year true

/-- `get_student_loan_interest_thresholds` from `main.py`. -/
def get_student_loan_interest_thresholds (year : ℤ) : ℚ × ℚ :=
  (student_loan_interest_lower_threshold year, student_loan_interest_upper_threshold year)

/-- `get_student_loan_interest_rate` from `main.py`: RPI below the lower
threshold, RPI + 3% at or above the upper threshold, linear taper between. -/
def get_student_loan_interest_rate (gross_income : ℚ) (year : ℤ) : ℚ :=
  let rpi := get_rpi year
  let lower_threshold := (get_student_loan_interest_thresholds year).1
  let upper_threshold := (get_student_loan_interest_thresholds year).2
  if gross_income ≤ lower_threshold then rpi
  else if gross_income ≥ upper_threshold then rpi + STUDENT_LOAN_INTEREST_ADDITIONAL_RATE
  else
    rpi + STUDENT_LOAN_INTEREST_ADDITIONAL_RATE *
      ((gross_income - lower_threshold) / (upper_threshold - lower_threshold))

/-- `calculate_student_loan` from `main.py`; the optional `threshold`
argument (Python default `None`) is an `Option`. -/
def calculate_student_loan (gross_income remaining_debt : ℚ) (year : ℤ)
    (years_since_graduation : ℤ) (threshold : Option ℚ) : ℚ × ℚ :=
  if years_since_graduation ≥ STUDENT_LOAN_FORGIVENESS_YEARS then (0, 0)
  else if remaining_debt ≤ 0 then (0, 0)
  else
    let t := threshold.getD STUDENT_LOAN_THRESHOLD_PLAN2
    let interest_rate := get_student_loan_interest_rate gross_income year
    if gross_income ≤ t then (0, remaining_debt * (1 + interest_rate))
    else
      let repayment := min ((gross_income - t) * STUDENT_LOAN_RATE) remaining_debt
      let new_debt := (remaining_debt - repayment) * (1 + interest_rate)
      (repayment, max 0 new_debt)

/-! ## Fuel duty -/

/-- Baseline fuel duty table (`FUEL_DUTY_BASELINE` in `main.py`), with the
calendar-year averages kept as the exact arithmetic expressions of the source. -/
def fuel_duty_baseline_table (year : ℤ) : Option ℚ :=
  if year = 2025 then some 0.5295
  else if year = 2026 then some ((0.5295 * 91 + 0.6033 * 275) / 366)
  else if year = 2027 then some ((0.6033 * 90 + 0.6226 * 275) / 365)
  else if year = 2028 then some ((0.6226 * 91 + 0.6406 * 275) / 366)
  else if year = 2029 then some ((0.6406 * 90 + 0.6592 * 275) / 365)
  else none

/-- Reform fuel duty table (`FUEL_DUTY_REFORM` in `main.py`). -/
def fuel_duty_reform_table (year : ℤ) : Option ℚ :=
  if year = 2025 then some 0.5295
  else if year = 2026 then some 0.5345
  else if year = 2027 then some 0.5902
  else if year = 2028 then some 0.6111
  else if year = 2029 then some 0.6290
  else none

/-- `get_fuel_duty_rate` from `main.py`: table lookup, else extrapolation from
the last table year (2029) by `(1 + FUEL_DUTY_RPI_LONG_TERM) ** (year - 2029)`
(an integer power, negative for years before the table, as in Python). -/
def get_fuel_duty_rate (year : ℤ) (is_reform : Bool) : ℚ :=
  let rates := if is_reform then fuel_duty_reform_table else fuel_duty_baseline_table
  let last_rate := if is_reform then (0.6290 : ℚ) else ((0.6406 * 90 + 0.6592 * 275) / 365 : ℚ)
  (rates year).getD (last_rate * (1 + FUEL_DUTY_RPI_LONG_TERM) ^ (year - 2029))

/-- `calculate_fuel_duty_impact` from `main.py`. -/
def calculate_fuel_duty_impact (petrol_spending : ℚ) (year : ℤ) : ℚ :=
  if year < 2026 then 0
  else
    let baseline_rate := get_fuel_duty_rate year false
    let reform_rate := get_fuel_duty_rate year true
    let litres := petrol_spending / AVG_PETROL_PRICE_PER_LITRE
    (baseline_rate - reform_rate) * litres

/-! ## Unearned income tax -/

/-- `calculate_unearned_income_tax` from `main.py`: remaining personal
allowance applied to savings, then dividends, then property; rates depend on
total income; the `increased_tax` flag multiplies the final total by 1.05. -/
def calculate_unearned_income_tax (dividends savings_interest property_income gross_income : ℚ)
    (increased_tax : Bool) : ℚ :=
  let remaining_pa := max 0 (PERSONAL_ALLOWANCE - gross_income)
  let total_unearned := dividends + savings_interest + property_income
  if remaining_pa ≥ total_unearned then 0
  else
    let total_income := gross_income + total_unearned
    let savings_allowance :=
      if total_income > BASIC_RATE_THRESHOLD then SAVINGS_ALLOWANCE_HIGHER else SAVINGS_ALLOWANCE_BASIC
    let dividend_rate : ℚ := if total_income > BASIC_RATE_THRESHOLD then 0.3375 else 0.0875
    let savings_rate := if total_income > BASIC_RATE_THRESHOLD then HIGHER_RATE else BASIC_RATE
    let pa_used0 : ℚ := 0
    let savings_after_pa := max 0 (savings_interest - max 0 (remaining_pa - pa_used0))
    let pa_used1 := pa_used0 + min savings_interest (max 0 (remaining_pa - pa_used0))
    let taxable_savings := max 0 (savings_after_pa - savings_allowance)
    let dividends_after_pa := max 0 (dividends - max 0 (remaining_pa - pa_used1))
    let pa_used2 := pa_used1 + min dividends (max 0 (remaining_pa - pa_used1))
    let taxable_dividends := max 0 (dividends_after_pa - DIVIDEND_ALLOWANCE)
    let property_after_pa := max 0 (property_income - max 0 (remaining_pa - pa_used2))
    let taxable_property := property_after_pa
    let tax := taxable_dividends * dividend_rate + taxable_savings * savings_rate
      + taxable_property * savings_rate
    if increased_tax then tax * 1.05 else tax

/-! ## Universal Credit two-child-limit impact -/

/-- The per-child element for a year (lines 240–247 of `main.py`): the 2025
value, CPI-uprated from 2025 for later years. -/
def uc_child_element_for_year (year : ℤ) : ℚ :=
  if year ≤ 2025 then UC_CHILD_ELEMENT_ANNUAL_2025
  else UC_CHILD_ELEMENT_ANNUAL_2025 * get_cumulative_inflation 2025 year false

/-- The standard allowance for a year (lines 240–248 of `main.py`). -/
def uc_standard_allowance_for_year (year : ℤ) : ℚ :=
  if year ≤ 2025 then UC_STANDARD_ALLOWANCE_SINGLE_PARENT_2025
  else UC_STANDARD_ALLOWANCE_SINGLE_PARENT_2025 * get_cumulative_inflation 2025 year false

/-- The work allowance for a year (lines 240–250 of `main.py`), which depends
on whether the household receives a housing element. -/
def uc_work_allowance_for_year (year : ℤ) (has_housing_element : Bool) : ℚ :=
  let base :=
    if has_housing_element then UC_WORK_ALLOWANCE_WITH_HOUSING_2025
    else UC_WORK_ALLOWANCE_NO_HOUSING_2025
  if year ≤ 2025 then base else base * get_cumulative_inflation 2025 year false

/-- `calculate_uc_child_element_impact` from `main.py`. -/
def calculate_uc_child_element_impact (num_children : ℕ) (children_ages : List ℤ) (year : ℤ)
    (net_earnings : ℚ) (has_housing_element : Bool) : ℚ :=
  if num_children = 0 ∨ children_ages = [] then 0
  else
    let eligible_children :=
      (children_ages.filter (fun age => age < UC_CHILD_ELEMENT_MAX_AGE + 1)).length
    if eligible_children ≤ UC_TWO_CHILD_LIMIT then 0
    else
      let child_element := uc_child_element_for_year year
      let standard_allowance := uc_standard_allowance_for_year year
      let work_allowance := uc_work_allowance_for_year year has_housing_element
      let children_with_limit := min eligible_children UC_TWO_CHILD_LIMIT
      let max_uc_with_limit := standard_allowance + (children_with_limit : ℚ) * child_element
      let max_uc_without_limit := standard_allowance + (eligible_children : ℚ) * child_element
      let income_reduction :=
        if net_earnings > work_allowance then (net_earnings - work_allowance) * UC_TAPER_RATE
        else 0
      let actual_uc_with_limit := max 0 (max_uc_with_limit - income_reduction)
      let actual_uc_without_limit := max 0 (max_uc_without_limit - income_reduction)
      actual_uc_without_limit - actual_uc_with_limit

/-! ## Scenario evaluator -/

structure ScenarioState where
  pa : ℚ
  basic_threshold : ℚ
  taper_threshold : ℚ
  additional_threshold : ℚ
  effective_pa : ℚ
  income_tax : ℚ
  sl_threshold : ℚ
  sl_payment : ℚ
  sl_debt : ℚ
deriving DecidableEq

/-- `calculate_scenario` from `main.py`: income-tax thresholds frozen until
`freeze_end_year` (and in any case until 2028), then CPI-uprated; the
student-loan threshold has its own freeze-end (2027 baseline / 2030 reform);
income tax and the student-loan step are then computed. -/
def calculate_scenario (gross_income : ℚ) (current_year : ℤ) (years_since_graduation : ℤ)
    (remaining_debt : ℚ) (freeze_end_year : ℤ) : ScenarioState :=
  let thresholds : ℚ × ℚ × ℚ :=
    if current_year < 2028 then
      (PERSONAL_ALLOWANCE, BASIC_RATE_THRESHOLD, HIGHER_RATE_THRESHOLD)
    else if current_year < freeze_end_year then
      (PERSONAL_ALLOWANCE, BASIC_RATE_THRESHOLD, HIGHER_RATE_THRESHOLD)
    else
      let cpi_factor := get_cumulative_inflation freeze_end_year current_year false
      (PERSONAL_ALLOWANCE * cpi_factor, BASIC_RATE_THRESHOLD * cpi_factor,
        HIGHER_RATE_THRESHOLD * cpi_factor)
  let pa := thresholds.1
  let basic_threshold := thresholds.2.1
  let additional_threshold := thresholds.2.2
  let taper_threshold := PA_TAPER_THRESHOLD
  let effective_pa :=
    if gross_income > taper_threshold then
      max 0 (pa - (gross_income - taper_threshold) * PA_TAPER_RATE)
    else pa
  let taxable0 := max 0 (gross_income - effective_pa)
  let basic_band := if taxable0 > 0 then min taxable0 (basic_threshold - pa) else 0
  let tax1 := basic_band * BASIC_RATE
  let taxable1 := taxable0 - basic_band
  let higher_band := if taxable1 > 0 then min taxable1 (additional_threshold - basic_threshold) else 0
  let tax2 := tax1 + higher_band * HIGHER_RATE
  let taxable2 := taxable1 - higher_band
  let income_tax := if taxable2 > 0 then tax2 + taxable2 * ADDITIONAL_RATE else tax2
  let sl_freeze_end : ℤ := if freeze_end_year = 2028 then 2027 else 2030
  let sl_threshold :=
    if current_year < 2027 then STUDENT_LOAN_THRESHOLD_PLAN2
    else if current_year < sl_freeze_end then STUDENT_LOAN_THRESHOLD_PLAN2
    else STUDENT_LOAN_THRESHOLD_PLAN2 * get_cumulative_inflation sl_freeze_end current_year true
  let sl := calculate_student_loan gross_income remaining_debt current_year
    years_since_graduation (some sl_threshold)
  ⟨pa, basic_threshold, taper_threshold, additional_threshold, effective_pa, income_tax,
    sl_threshold, sl.1, sl.2⟩

/-! ## Lifetime simulation engine -/

/-- `EARNINGS_GROWTH_BY_AGE.get(age, PEAK_EARNINGS_MULTIPLIER)` from `main.py`. -/
def earnings_growth_by_age (age : ℤ) : ℚ :=
  if age = 22 then 1.00 else if age = 23 then 1.05 else if age = 24 then 1.10
  else if age = 25 then 1.16 else if age = 26 then 1.22 else if age = 27 then 1.28
  else if age = 28 then 1.35 else if age = 29 then 1.42 else if age = 30 then 1.50
  else if age = 31 then 1.55 else if age = 32 then 1.60 else if age = 33 then 1.65
  else if age = 34 then 1.70 else if age = 35 then 1.75 else if age = 36 then 1.80
  else if age = 37 then 1.84 else if age = 38 then 1.88 else if age = 39 then 1.92
  else if age = 40 then 1.96 else if age = 41 then 2.00 else if age = 42 then 2.03
  else if age = 43 then 2.06 else if age = 44 then 2.09 else if age = 45 then 2.12
  else if age = 46 then 2.14 else if age = 47 then 2.16 else if age = 48 then 2.18
  else if age = 49 then 2.19 else if age = 50 then 2.20
  else PEAK_EARNINGS_MULTIPLIER

/-- `ModelInputs` from `main.py` (the run configuration). -/
structure ModelInputs where
  current_age : ℤ
  current_salary : ℚ
  retirement_age : ℤ
  life_expectancy : ℤ
  student_loan_debt : ℚ
  salary_sacrifice_per_year : ℚ
  rail_spending_per_year : ℚ
  dividends_per_year : ℚ
  savings_interest_per_year : ℚ
  property_income_per_year : ℚ
  petrol_spending_per_year : ℚ
  additional_income_growth_rate : ℚ
  children_ages : List ℤ
deriving DecidableEq

/-- One output row of `run_model` (the Annual Record).  The source additionally
emits per-policy impact deltas and rounds each monetary field with `round(...)`
at the output boundary; the embedding records the full-precision values the
loop computes and threads forward. -/
structure AnnualRecord where
  age : ℤ
  year : ℤ
  gross_income : ℚ
  employment_income : ℚ
  state_pension : ℚ
  income_tax : ℚ
  national_insurance : ℚ
  student_loan_payment : ℚ
  student_loan_debt_remaining : ℚ
deriving DecidableEq

/-- The body of one non-skipped iteration of the `run_model` year loop
(lines 777–904 of `main.py`): derives age and income, evaluates both
scenarios, and returns the annual record together with the updated baseline
and reform debt balances. -/
def simulate_year (inputs : ModelInputs) (starting_salary : ℚ)
    (graduation_year current_year : ℤ) (baseline_debt reform_debt : ℚ) :
    AnnualRecord × ℚ × ℚ :=
  let years_since_graduation := current_year - graduation_year
  let age := 22 + years_since_graduation
  let incomes : ℚ × ℚ × ℚ :=
    -- (employment_income, state_pension, gross_income); `is_retired` is
    -- `age > inputs.retirement_age` in the source (strict).
    if inputs.retirement_age < age then
      (0, get_state_pension current_year, get_state_pension current_year)
    else
      let base_multiplier := earnings_growth_by_age age
      let additional_growth :=
        (1 + inputs.additional_income_growth_rate) ^ years_since_graduation
      let employment := starting_salary * base_multiplier * additional_growth
      (employment, 0, employment)
  let employment_income := incomes.1
  let state_pension := incomes.2.1
  let gross_income := incomes.2.2
  let baseline := calculate_scenario gross_income current_year years_since_graduation
    baseline_debt 2028
  let reform := calculate_scenario gross_income current_year years_since_graduation
    reform_debt 2031
  let ni := calculate_ni gross_income
  (⟨age, current_year, gross_income, employment_income, state_pension,
      reform.income_tax, ni, reform.sl_payment, reform.sl_debt⟩,
    baseline.sl_debt, reform.sl_debt)

/-- The `run_model` year loop: skips years whose derived age is below the
current age or above the life expectancy (Python `continue`), otherwise emits
a record and threads the two debt balances forward. -/
def run_model_loop (inputs : ModelInputs) (starting_salary : ℚ) (graduation_year : ℤ)
    (years : List ℤ) (baseline_debt reform_debt : ℚ) : List AnnualRecord :=
  match years with
  | [] => []
  | current_year :: rest =>
    let age := 22 + (current_year - graduation_year)
    if age < inputs.current_age ∨ age > inputs.life_expectancy then
      run_model_loop inputs starting_salary graduation_year rest baseline_debt reform_debt
    else
      let step := simulate_year inputs starting_salary graduation_year current_year
        baseline_debt reform_debt
      step.1 :: run_model_loop inputs starting_salary graduation_year rest step.2.1 step.2.2

/-- `run_model` from `main.py`: derives the age-22 starting salary and the
graduation year, builds the year range `2026 .. end_year` (inclusive; empty
when `end_year < 2026`), and runs the loop with both debt balances starting
at the configured student debt. -/
def run_model (inputs : ModelInputs) : List AnnualRecord :=
  let input_year : ℤ := 2025
  let current_age_multiplier := earnings_growth_by_age inputs.current_age
  let base_multiplier_22 := earnings_growth_by_age 22
  let starting_salary := inputs.current_salary / current_age_multiplier * base_multiplier_22
  let graduation_age : ℤ := 22
  let graduation_year := input_year - (inputs.current_age - graduation_age)
  let base_year : ℤ := 2026
  let end_year := input_year + (inputs.life_expectancy - inputs.current_age)
  let years := (List.range (end_year + 1 - base_year).toNat).map (fun i => base_year + i)
  run_model_loop inputs starting_salary graduation_year years
    inputs.student_loan_debt inputs.student_loan_debt

/-! ## Closed forms used to reason about the income-tax band chain -/

/-- Taxable income after the allowance taper, written as a single expression
(the `pa` / `taxable` steps of `calculate_income_tax`). -/
def itax_taxable (gross_income : ℚ) : ℚ :=
  max 0 (gross_income -
    (if gross_income > PA_TAPER_THRESHOLD then
      PERSONAL_ALLOWANCE -
        min PERSONAL_ALLOWANCE ((gross_income - PA_TAPER_THRESHOLD) * PA_TAPER_RATE)
    else PERSONAL_ALLOWANCE))

/-- The three-band tax on a given taxable amount, written as a single
expression (the band chain of `calculate_income_tax`). -/
def itax_bands (t : ℚ) : ℚ :=
  min t (BASIC_RATE_THRESHOLD - PERSONAL_ALLOWANCE) * BASIC_RATE
    + min (max 0 (t - (BASIC_RATE_THRESHOLD - PERSONAL_ALLOWANCE)))
        (HIGHER_RATE_THRESHOLD - BASIC_RATE_THRESHOLD) * HIGHER_RATE
    + max 0 (max 0 (t - (BASIC_RATE_THRESHOLD - PERSONAL_ALLOWANCE))
        - (HIGHER_RATE_THRESHOLD - BASIC_RATE_THRESHOLD)) * ADDITIONAL_RATE

/-- The basic-band amount of the chain in `calculate_income_tax`. -/
def itax_basic_band (t : ℚ) : ℚ :=
  if t > 0 then min t (BASIC_RATE_THRESHOLD - PERSONAL_ALLOWANCE) else 0

/-- Taxable income remaining after the basic band. -/
def itax_taxable1 (t : ℚ) : ℚ := t - itax_basic_band t

/-- The higher-band amount of the chain in `calculate_income_tax`. -/
def itax_higher_band (t : ℚ) : ℚ :=
  if itax_taxable1 t > 0 then
    min (itax_taxable1 t) (HIGHER_RATE_THRESHOLD - BASIC_RATE_THRESHOLD)
  else 0

/-- Taxable income remaining after the higher band. -/
def itax_taxable2 (t : ℚ) : ℚ := itax_taxable1 t - itax_higher_band t

/-- The band chain of `calculate_income_tax` as a function of the
post-taper taxable amount. -/
def itax_chain (t : ℚ) : ℚ :=
  if itax_taxable2 t > 0 then
    itax_basic_band t * BASIC_RATE + itax_higher_band t * HIGHER_RATE
      + itax_taxable2 t * ADDITIONAL_RATE
  else itax_basic_band t * BASIC_RATE + itax_higher_band t * HIGHER_RATE

/-! ## Concrete configurations used as counterexample / witness inputs -/

/-- Configuration with the first simulated age (67) equal to the retirement
age: no growth, salary 100, no debt, no children. -/
def cfgAtRetirementAge : ModelInputs :=
  ⟨66, 100, 67, 67, 0, 0, 0, 0, 0, 0, 0, 0, []⟩

/-- Configuration whose first simulated age (67) is strictly past the
retirement age (60). -/
def cfgPastRetirementAge : ModelInputs :=
  ⟨66, 100, 60, 67, 0, 0, 0, 0, 0, 0, 0, 0, []⟩

/-- Configuration with life expectancy strictly below the current age. -/
def cfgDegenerate : ModelInputs :=
  ⟨30, 40000, 67, 29, 50000, 0, 0, 0, 0, 0, 0, 0, []⟩

/-- The single annual record produced by `run_model cfgPastRetirementAge`:
age 67 in 2026, retired, gross income equal to the 2026 state pension
(12569.85 = 251397/20). -/
def recPastRetirement : AnnualRecord :=
  ⟨67, 2026, 251397 / 20, 0, 251397 / 20, 0, 0, 0, 0⟩

/-- The single annual record produced by `run_model cfgAtRetirementAge`:
age 67 in 2026 — exactly the retirement age — still employed with
employment income 100. -/
def recAtRetirement : AnnualRecord :=
  ⟨67, 2026, 100, 100, 0, 0, 0, 0, 0⟩

/-! ## Shared helper lemmas -/

theorem sub_min_eq_max_sub (a b : ℚ) : a - min a b = max 0 (a - b) := by
  rcases le_total a b with h | h
  · rw [min_eq_left h, sub_self, max_eq_left (by linarith)]
  · rw [min_eq_right h, max_eq_right (by linarith)]

theorem one_add_cpi_pos (year : ℤ) : 0 < 1 + get_cpi year := by
  unfold get_cpi
  split_ifs <;> norm_num [CPI_LONG_TERM]

theorem one_add_rpi_pos (year : ℤ) : 0 < 1 + get_rpi year := by
  unfold get_rpi
  split_ifs <;> norm_num [RPI_LONG_TERM]

theorem get_cumulative_inflation_pos (base_year target_year : ℤ) (use_rpi : Bool) :
    0 < get_cumulative_inflation base_year target_year use_rpi := by
  unfold get_cumulative_inflation
  apply List.prod_pos
  intro x hx
  simp only [List.mem_map] at hx
  obtain ⟨i, _, rfl⟩ := hx
  cases use_rpi
  · simpa using one_add_cpi_pos (base_year + i)
  · simpa using one_add_rpi_pos (base_year + i)

/-! ## Claim C2: 30-year forgiveness -/

/-- Claim C2: for every gross income, starting debt balance, calendar year
and repayment threshold, once years-since-graduation is at least 30 the
student-loan calculation returns repayment 0 and new balance exactly 0,
regardless of the prior balance or income. -/
theorem claim2_forgiveness_zero (gross_income remaining_debt : ℚ) (year : ℤ)
    (years_since_graduation : ℤ) (threshold : Option ℚ)
    (h : 30 ≤ years_since_graduation) :
    calculate_student_loan gross_income remaining_debt year years_since_graduation threshold
      = (0, 0) := by
  unfold calculate_student_loan
  rw [if_pos]
  exact h

/-- Witness for claim C2 at a concrete input. -/
theorem claim2_witness :
    (30 : ℤ) ≤ 30 ∧ calculate_student_loan 50000 10000 2030 30 none = (0, 0) :=
  ⟨by norm_num, claim2_forgiveness_zero 50000 10000 2030 30 none (by norm_num)⟩

/-! ## Claim C6: increased-rate flag is a pure multiplier -/

/-- Claim C6: for every combination of dividends, savings interest, property
income and gross earned income, the unearned-income tax with the
increased-rate flag set equals the fixed constant 1.05 times the tax with the
flag clear; the allowance-distribution step is unaltered by the flag. -/
theorem claim6_increased_rate_scales
    (dividends savings_interest property_income gross_income : ℚ) :
    calculate_unearned_income_tax dividends savings_interest property_income gross_income true
      = 1.05 *
        calculate_unearned_income_tax dividends savings_interest property_income gross_income
          false := by
  simp only [calculate_unearned_income_tax]
  split_ifs <;> first | contradiction | ring

/-! ## Claim C8: degenerate configurations produce an empty output -/

/-- Claim C8: for every run configuration whose life expectancy is strictly
below the current age, the engine returns an empty output sequence (the year
loop's entry condition excludes every year). -/
theorem claim8_degenerate_empty (inputs : ModelInputs)
    (h : inputs.life_expectancy < inputs.current_age) :
    run_model inputs = [] := by
  simp only [run_model]
  have h0 : (2025 + (inputs.life_expectancy - inputs.current_age) + 1 - 2026).toNat = 0 := by
    omega
  rw [h0]
  rfl

/-- Witness for claim C8 at a concrete configuration. -/
theorem claim8_witness :
    cfgDegenerate.life_expectancy < cfgDegenerate.current_age ∧ run_model cfgDegenerate = [] :=
  ⟨by decide, claim8_degenerate_empty cfgDegenerate (by decide)⟩


/-! ## Claim C10: fuel-duty impact is non-negative -/

theorem fuel_reform_le_baseline (year : ℤ) :
    get_fuel_duty_rate year true ≤ get_fuel_duty_rate year false := by
  have hp : (0 : ℚ) < (1 + FUEL_DUTY_RPI_LONG_TERM) ^ (year - 2029) :=
    zpow_pos (by norm_num [FUEL_DUTY_RPI_LONG_TERM]) _
  unfold get_fuel_duty_rate fuel_duty_reform_table fuel_duty_baseline_table
  simp only [Bool.false_eq_true, if_true, if_false, ite_true, ite_false]
  split_ifs <;>
    simp only [Option.getD_some, Option.getD_none] <;>
    first
      | exact mul_le_mul_of_nonneg_right (by norm_num) hp.le
      | norm_num

/-- Claim C10: for every calendar year and non-negative petrol spend, the
fuel-duty impact is at least 0; and from the reform's effective year (2026)
onward the baseline per-litre rate is at least the reform per-litre rate,
including extrapolated years beyond the explicit tables. -/
theorem claim10_fuel_duty_impact_nonneg (year : ℤ) (petrol_spending : ℚ)
    (h : 0 ≤ petrol_spending) :
    0 ≤ calculate_fuel_duty_impact petrol_spending year ∧
      (2026 ≤ year → get_fuel_duty_rate year true ≤ get_fuel_duty_rate year false) := by
  constructor
  · unfold calculate_fuel_duty_impact
    split_ifs
    · exact le_refl 0
    · exact mul_nonneg (sub_nonneg.mpr (fuel_reform_le_baseline year))
        (div_nonneg h (by norm_num [AVG_PETROL_PRICE_PER_LITRE]))
  · intro _
    exact fuel_reform_le_baseline year

/-- Witness for claim C10 at a concrete input (an extrapolated year). -/
theorem claim10_witness :
    (0 : ℚ) ≤ 1400 ∧
      (0 ≤ calculate_fuel_duty_impact 1400 2030 ∧
        (2026 ≤ (2030 : ℤ) →
          get_fuel_duty_rate 2030 true ≤ get_fuel_duty_rate 2030 false)) :=
  ⟨by norm_num, claim10_fuel_duty_impact_nonneg 2030 1400 (by norm_num)⟩

/-! ## Claim C5: income-contingent interest rate anchors -/

theorem sl_lower_threshold_before (year : ℤ) (h : year < 2020) :
    student_loan_interest_lower_threshold year = 26575 := by
  unfold student_loan_interest_lower_threshold
  repeat rw [if_neg (by omega)]
  rw [if_pos h]

theorem sl_upper_threshold_before (year : ℤ) (h : year < 2020) :
    student_loan_interest_upper_threshold year = 47835 := by
  unfold student_loan_interest_upper_threshold
  repeat rw [if_neg (by omega)]
  rw [if_pos h]

theorem sl_lower_threshold_beyond (year : ℤ) (h : 2030 ≤ year) :
    student_loan_interest_lower_threshold year
      = 29385 * get_cumulative_inflation 2029 year true := by
  unfold student_loan_interest_lower_threshold
  repeat rw [if_neg (by omega)]

theorem sl_upper_threshold_beyond (year : ℤ) (h : 2030 ≤ year) :
    student_loan_interest_upper_threshold year
      = 52885 * get_cumulative_inflation 2029 year true := by
  unfold student_loan_interest_upper_threshold
  repeat rw [if_neg (by omega)]

theorem sl_lower_lt_upper (year : ℤ) :
    student_loan_interest_lower_threshold year < student_loan_interest_upper_threshold year := by
  rcases lt_or_le year 2020 with h | h
  · rw [sl_lower_threshold_before year h, sl_upper_threshold_before year h]
    norm_num
  · rcases le_or_lt year 2029 with h2 | h2
    · interval_cases year <;> decide
    · rw [sl_lower_threshold_beyond year (by omega), sl_upper_threshold_beyond year (by omega)]
      exact mul_lt_mul_of_pos_right (by norm_num)
        (get_cumulative_inflation_pos 2029 year true)

/-- Claim C5: for every calendar year, the income-contingent interest rate
equals the base (RPI) rate at income equal to the lower threshold, equals
base + 0.03 at any income at or above the upper threshold, and equals
base + 0.03/2 at the exact midpoint of the two thresholds. -/
theorem claim5_interest_rate_anchors (year : ℤ) :
    get_student_loan_interest_rate (student_loan_interest_lower_threshold year) year
        = get_rpi year ∧
      (∀ gross_income : ℚ, student_loan_interest_upper_threshold year ≤ gross_income →
        get_student_loan_interest_rate gross_income year
          = get_rpi year + STUDENT_LOAN_INTEREST_ADDITIONAL_RATE) ∧
      get_student_loan_interest_rate
          ((student_loan_interest_lower_threshold year
            + student_loan_interest_upper_threshold year) / 2) year
        = get_rpi year + STUDENT_LOAN_INTEREST_ADDITIONAL_RATE / 2 := by
  have hlu := sl_lower_lt_upper year
  refine ⟨?_, ?_, ?_⟩
  · simp only [get_student_loan_interest_rate, get_student_loan_interest_thresholds]
    rw [if_pos le_rfl]
  · intro gross_income hgi
    simp only [get_student_loan_interest_rate, get_student_loan_interest_thresholds]
    rw [if_neg (by push_neg; linarith), if_pos hgi]
  · simp only [get_student_loan_interest_rate, get_student_loan_interest_thresholds]
    rw [if_neg (by push_neg; linarith), if_neg (by push_neg; linarith)]
    have hne : student_loan_interest_upper_threshold year
        - student_loan_interest_lower_threshold year ≠ 0 := sub_ne_zero.mpr (ne_of_gt hlu)
    field_simp
    ring

/-- Witness for claim C5 at year 2026 (thresholds 29385 and 52885). -/
theorem claim5_witness :
    get_student_loan_interest_rate (student_loan_interest_lower_threshold 2026) 2026
        = get_rpi 2026 ∧
      get_student_loan_interest_rate 60000 2026
        = get_rpi 2026 + STUDENT_LOAN_INTEREST_ADDITIONAL_RATE ∧
      get_student_loan_interest_rate
          ((student_loan_interest_lower_threshold 2026
            + student_loan_interest_upper_threshold 2026) / 2) 2026
        = get_rpi 2026 + STUDENT_LOAN_INTEREST_ADDITIONAL_RATE / 2 :=
  ⟨(claim5_interest_rate_anchors 2026).1,
    (claim5_interest_rate_anchors 2026).2.1 60000 (by decide),
    (claim5_interest_rate_anchors 2026).2.2⟩

/-! ## Claims C9 and C3: Universal-Credit impact -/

theorem uc_child_element_for_year_pos (year : ℤ) : 0 < uc_child_element_for_year year := by
  unfold uc_child_element_for_year
  split_ifs
  · norm_num [UC_CHILD_ELEMENT_ANNUAL_2025]
  · exact mul_pos (by norm_num [UC_CHILD_ELEMENT_ANNUAL_2025])
      (get_cumulative_inflation_pos 2025 year false)

theorem uc_standard_allowance_for_year_pos (year : ℤ) :
    0 < uc_standard_allowance_for_year year := by
  unfold uc_standard_allowance_for_year
  split_ifs
  · norm_num [UC_STANDARD_ALLOWANCE_SINGLE_PARENT_2025]
  · exact mul_pos (by norm_num [UC_STANDARD_ALLOWANCE_SINGLE_PARENT_2025])
      (get_cumulative_inflation_pos 2025 year false)

/-- Claim C9: for every number of children, list of children's ages, calendar
year, non-negative net earnings and housing-element flag, the UC impact is
at least 0 (the uncapped post-taper entitlement never falls below the capped
one). -/
theorem claim9_uc_impact_nonneg (num_children : ℕ) (children_ages : List ℤ) (year : ℤ)
    (net_earnings : ℚ) (has_housing_element : Bool) (_h : 0 ≤ net_earnings) :
    0 ≤ calculate_uc_child_element_impact num_children children_ages year net_earnings
        has_housing_element := by
  simp only [calculate_uc_child_element_impact]
  split_ifs with h1 h2 h3
  · exact le_refl 0
  · exact le_refl 0
  all_goals {
    rw [sub_nonneg]
    apply max_le_max (le_refl 0)
    have hce := (uc_child_element_for_year_pos year).le
    have hm : ((min (children_ages.filter
          (fun age => age < UC_CHILD_ELEMENT_MAX_AGE + 1)).length UC_TWO_CHILD_LIMIT : ℕ) : ℚ)
        ≤ ((children_ages.filter
          (fun age => age < UC_CHILD_ELEMENT_MAX_AGE + 1)).length : ℚ) := by
      exact_mod_cast Nat.min_le_left _ _
    have := mul_le_mul_of_nonneg_right hm hce
    linarith
  }

/-- Witness for claim C9 at a concrete input. -/
theorem claim9_witness :
    (0 : ℚ) ≤ 0 ∧ 0 ≤ calculate_uc_child_element_impact 1 [5] 2026 0 true :=
  ⟨le_refl 0, claim9_uc_impact_nonneg 1 [5] 2026 0 true (le_refl 0)⟩

/-- Claim C3: the UC impact function returns exactly 0 whenever the number of
eligible children (age below the cutoff) is 2 or fewer; and for exactly 3
eligible children with net earnings at or below the work allowance (and a
nonzero child count, as the engine always passes), it returns exactly the
full per-child element amount for that year. -/
theorem claim3_uc_exact_cases (num_children : ℕ) (children_ages : List ℤ) (year : ℤ)
    (net_earnings : ℚ) (has_housing_element : Bool) :
    ((children_ages.filter (fun age => age < UC_CHILD_ELEMENT_MAX_AGE + 1)).length ≤ 2 →
      calculate_uc_child_element_impact num_children children_ages year net_earnings
          has_housing_element = 0) ∧
    ((children_ages.filter (fun age => age < UC_CHILD_ELEMENT_MAX_AGE + 1)).length = 3 →
      num_children ≠ 0 →
      net_earnings ≤ uc_work_allowance_for_year year has_housing_element →
      calculate_uc_child_element_impact num_children children_ages year net_earnings
          has_housing_element = uc_child_element_for_year year) := by
  constructor
  · intro hle
    simp only [calculate_uc_child_element_impact]
    split_ifs with h1 h2 <;> first | rfl | exact absurd hle h2
  · intro h3 hn hwa
    have hguard : ¬ (num_children = 0 ∨ children_ages = []) := by
      rintro (hz | he)
      · exact hn hz
      · rw [he] at h3
        simp at h3
    simp only [calculate_uc_child_element_impact]
    rw [if_neg hguard, h3]
    rw [if_neg (by norm_num [UC_TWO_CHILD_LIMIT])]
    rw [if_neg (not_lt.mpr hwa)]
    have hce := uc_child_element_for_year_pos year
    have hstd := uc_standard_allowance_for_year_pos year
    have hmin : ((min 3 UC_TWO_CHILD_LIMIT : ℕ) : ℚ) = 2 := by norm_num [UC_TWO_CHILD_LIMIT]
    rw [hmin]
    push_cast
    rw [max_eq_right (by linarith), max_eq_right (by linarith)]
    ring

/-- Witness for claim C3: three eligible children in 2025 at zero earnings
gain exactly the 2025 per-child element; one eligible child gains nothing. -/
theorem claim3_witness :
    calculate_uc_child_element_impact 1 [5] 2025 0 true = 0 ∧
      calculate_uc_child_element_impact 3 [1, 2, 3] 2025 0 true
        = uc_child_element_for_year 2025 :=
  ⟨(claim3_uc_exact_cases 1 [5] 2025 0 true).1 (by decide),
    (claim3_uc_exact_cases 3 [1, 2, 3] 2025 0 true).2 (by decide) (by decide)
      (by norm_num [uc_work_allowance_for_year, UC_WORK_ALLOWANCE_WITH_HOUSING_2025])⟩

/-! ## Claim C7: income tax is non-negative and monotone -/

theorem itax_taxable_nonneg (gross_income : ℚ) : 0 ≤ itax_taxable gross_income := by
  unfold itax_taxable
  exact le_max_left 0 _

theorem calculate_income_tax_eq_chain (gross_income : ℚ) :
    calculate_income_tax gross_income = itax_chain (itax_taxable gross_income) := rfl

theorem itax_basic_band_eq (t : ℚ) (h : 0 ≤ t) :
    itax_basic_band t = min t (BASIC_RATE_THRESHOLD - PERSONAL_ALLOWANCE) := by
  unfold itax_basic_band
  split_ifs with h1
  · rfl
  · have ht0 : t = 0 := le_antisymm (not_lt.mp h1) h
    rw [ht0, min_eq_left (by norm_num [BASIC_RATE_THRESHOLD, PERSONAL_ALLOWANCE])]

theorem itax_taxable1_eq (t : ℚ) (h : 0 ≤ t) :
    itax_taxable1 t = max 0 (t - (BASIC_RATE_THRESHOLD - PERSONAL_ALLOWANCE)) := by
  unfold itax_taxable1
  rw [itax_basic_band_eq t h, sub_min_eq_max_sub]

theorem itax_higher_band_eq (t : ℚ) (h : 0 ≤ t) :
    itax_higher_band t
      = min (max 0 (t - (BASIC_RATE_THRESHOLD - PERSONAL_ALLOWANCE)))
          (HIGHER_RATE_THRESHOLD - BASIC_RATE_THRESHOLD) := by
  unfold itax_higher_band
  rw [itax_taxable1_eq t h]
  split_ifs with h1
  · rfl
  · have h0 : max 0 (t - (BASIC_RATE_THRESHOLD - PERSONAL_ALLOWANCE)) = 0 :=
      le_antisymm (not_lt.mp h1) (le_max_left _ _)
    rw [h0, min_eq_left (by norm_num [HIGHER_RATE_THRESHOLD, BASIC_RATE_THRESHOLD])]

theorem itax_taxable2_eq (t : ℚ) (h : 0 ≤ t) :
    itax_taxable2 t
      = max 0 (max 0 (t - (BASIC_RATE_THRESHOLD - PERSONAL_ALLOWANCE))
          - (HIGHER_RATE_THRESHOLD - BASIC_RATE_THRESHOLD)) := by
  unfold itax_taxable2
  rw [itax_taxable1_eq t h, itax_higher_band_eq t h, sub_min_eq_max_sub]

theorem itax_chain_eq_bands (t : ℚ) (h : 0 ≤ t) : itax_chain t = itax_bands t := by
  unfold itax_chain itax_bands
  rw [itax_basic_band_eq t h, itax_higher_band_eq t h, itax_taxable2_eq t h]
  split_ifs with h1
  · rfl
  · have h0 : max 0 (max 0 (t - (BASIC_RATE_THRESHOLD - PERSONAL_ALLOWANCE))
        - (HIGHER_RATE_THRESHOLD - BASIC_RATE_THRESHOLD)) = 0 :=
      le_antisymm (not_lt.mp h1) (le_max_left _ _)
    rw [h0, zero_mul, add_zero]

theorem itax_eq (gross_income : ℚ) :
    calculate_income_tax gross_income = itax_bands (itax_taxable gross_income) := by
  rw [calculate_income_tax_eq_chain gross_income]
  exact itax_chain_eq_bands _ (itax_taxable_nonneg gross_income)

theorem itax_taxable_mono {x y : ℚ} (hxy : x ≤ y) : itax_taxable x ≤ itax_taxable y := by
  unfold itax_taxable
  apply max_le_max le_rfl
  simp only [PA_TAPER_THRESHOLD, PA_TAPER_RATE, PERSONAL_ALLOWANCE]
  split_ifs with hx hy hy
  · have hq : (x - 100000) * 0.5 ≤ (y - 100000) * 0.5 := by linarith
    have hmin := min_le_min (le_refl (12570 : ℚ)) hq
    linarith
  · exfalso
    linarith
  · have hmin : (0 : ℚ) ≤ min 12570 ((y - 100000) * 0.5) := le_min (by norm_num) (by linarith)
    linarith
  · linarith

theorem itax_bands_mono {s t : ℚ} (hst : s ≤ t) : itax_bands s ≤ itax_bands t := by
  unfold itax_bands
  have h1 : min s (BASIC_RATE_THRESHOLD - PERSONAL_ALLOWANCE)
      ≤ min t (BASIC_RATE_THRESHOLD - PERSONAL_ALLOWANCE) := min_le_min hst le_rfl
  have h2 : max 0 (s - (BASIC_RATE_THRESHOLD - PERSONAL_ALLOWANCE))
      ≤ max 0 (t - (BASIC_RATE_THRESHOLD - PERSONAL_ALLOWANCE)) :=
    max_le_max le_rfl (by linarith)
  have h3 : min (max 0 (s - (BASIC_RATE_THRESHOLD - PERSONAL_ALLOWANCE)))
        (HIGHER_RATE_THRESHOLD - BASIC_RATE_THRESHOLD)
      ≤ min (max 0 (t - (BASIC_RATE_THRESHOLD - PERSONAL_ALLOWANCE)))
        (HIGHER_RATE_THRESHOLD - BASIC_RATE_THRESHOLD) := min_le_min h2 le_rfl
  have h4 : max 0 (max 0 (s - (BASIC_RATE_THRESHOLD - PERSONAL_ALLOWANCE))
        - (HIGHER_RATE_THRESHOLD - BASIC_RATE_THRESHOLD))
      ≤ max 0 (max 0 (t - (BASIC_RATE_THRESHOLD - PERSONAL_ALLOWANCE))
        - (HIGHER_RATE_THRESHOLD - BASIC_RATE_THRESHOLD)) := max_le_max le_rfl (by linarith)
  have hB : (0 : ℚ) ≤ BASIC_RATE := by norm_num [BASIC_RATE]
  have hH : (0 : ℚ) ≤ HIGHER_RATE := by norm_num [HIGHER_RATE]
  have hA : (0 : ℚ) ≤ ADDITIONAL_RATE := by norm_num [ADDITIONAL_RATE]
  exact add_le_add (add_le_add (mul_le_mul_of_nonneg_right h1 hB)
    (mul_le_mul_of_nonneg_right h3 hH)) (mul_le_mul_of_nonneg_right h4 hA)

theorem itax_bands_nonneg (t : ℚ) (h : 0 ≤ t) : 0 ≤ itax_bands t := by
  unfold itax_bands
  have h1 : (0 : ℚ) ≤ min t (BASIC_RATE_THRESHOLD - PERSONAL_ALLOWANCE) :=
    le_min h (by norm_num [BASIC_RATE_THRESHOLD, PERSONAL_ALLOWANCE])
  have h3 : (0 : ℚ) ≤ min (max 0 (t - (BASIC_RATE_THRESHOLD - PERSONAL_ALLOWANCE)))
      (HIGHER_RATE_THRESHOLD - BASIC_RATE_THRESHOLD) :=
    le_min (le_max_left _ _) (by norm_num [HIGHER_RATE_THRESHOLD, BASIC_RATE_THRESHOLD])
  exact add_nonneg (add_nonneg (mul_nonneg h1 (by norm_num [BASIC_RATE]))
    (mul_nonneg h3 (by norm_num [HIGHER_RATE])))
    (mul_nonneg (le_max_left _ _) (by norm_num [ADDITIONAL_RATE]))

/-- Claim C7: the income-tax calculator's output is always at least 0 and is
monotonically non-decreasing in gross income, including across the
allowance-taper region. -/
theorem claim7_income_tax_monotone (x y : ℚ) (_hx : 0 ≤ x) (hxy : x ≤ y) :
    0 ≤ calculate_income_tax x ∧ calculate_income_tax x ≤ calculate_income_tax y := by
  rw [itax_eq x, itax_eq y]
  exact ⟨itax_bands_nonneg _ (itax_taxable_nonneg x),
    itax_bands_mono (itax_taxable_mono hxy)⟩

/-- Witness for claim C7 across the taper region. -/
theorem claim7_witness :
    (0 : ℚ) ≤ 50000 ∧ (50000 : ℚ) ≤ 120000 ∧
      (0 ≤ calculate_income_tax 50000 ∧
        calculate_income_tax 50000 ≤ calculate_income_tax 120000) :=
  ⟨by norm_num, by norm_num, claim7_income_tax_monotone 50000 120000 (by norm_num) (by norm_num)⟩

/-! ## Claim C4: frozen-threshold scenario matches the standalone calculator -/

/-- Claim C4: for every gross income, calendar year, years-since-graduation,
carried debt balance and freeze-end year, whenever the current year is
strictly before the freeze-end year the scenario evaluator's income tax
equals the standalone income-tax calculator on the same gross income. -/
theorem claim4_scenario_refines_income_tax (gross_income : ℚ)
    (current_year years_since_graduation : ℤ) (remaining_debt : ℚ)
    (freeze_end_year : ℤ) (h : current_year < freeze_end_year) :
    (calculate_scenario gross_income current_year years_since_graduation remaining_debt
        freeze_end_year).income_tax
      = calculate_income_tax gross_income := by
  have hfrozen :
      (if current_year < 2028 then
        ((PERSONAL_ALLOWANCE : ℚ), BASIC_RATE_THRESHOLD, HIGHER_RATE_THRESHOLD)
      else if current_year < freeze_end_year then
        (PERSONAL_ALLOWANCE, BASIC_RATE_THRESHOLD, HIGHER_RATE_THRESHOLD)
      else
        (PERSONAL_ALLOWANCE * get_cumulative_inflation freeze_end_year current_year false,
          BASIC_RATE_THRESHOLD * get_cumulative_inflation freeze_end_year current_year false,
          HIGHER_RATE_THRESHOLD * get_cumulative_inflation freeze_end_year current_year false))
        = (PERSONAL_ALLOWANCE, BASIC_RATE_THRESHOLD, HIGHER_RATE_THRESHOLD) := by
    split_ifs <;> rfl
  have hepa :
      (if gross_income > PA_TAPER_THRESHOLD then
        max 0 (PERSONAL_ALLOWANCE - (gross_income - PA_TAPER_THRESHOLD) * PA_TAPER_RATE)
      else PERSONAL_ALLOWANCE)
      = (if gross_income > PA_TAPER_THRESHOLD then
        PERSONAL_ALLOWANCE -
          min PERSONAL_ALLOWANCE ((gross_income - PA_TAPER_THRESHOLD) * PA_TAPER_RATE)
      else PERSONAL_ALLOWANCE) := by
    split_ifs with h1
    · exact (sub_min_eq_max_sub PERSONAL_ALLOWANCE
        ((gross_income - PA_TAPER_THRESHOLD) * PA_TAPER_RATE)).symm
    · rfl
  simp only [calculate_scenario, hfrozen]
  rw [hepa]
  rfl

/-- Witness for claim C4 at a concrete input inside the taper region. -/
theorem claim4_witness :
    (2026 : ℤ) < 2031 ∧
      (calculate_scenario 120000 2026 1 40000 2031).income_tax = calculate_income_tax 120000 :=
  ⟨by norm_num, claim4_scenario_refines_income_tax 120000 2026 1 40000 2031 (by norm_num)⟩

/-! ## Claim C1: retirement switches income to the state pension -/

theorem simulate_year_age (inputs : ModelInputs) (starting_salary : ℚ)
    (graduation_year current_year : ℤ) (baseline_debt reform_debt : ℚ) :
    (simulate_year inputs starting_salary graduation_year current_year baseline_debt
        reform_debt).1.age = 22 + (current_year - graduation_year) := rfl

theorem simulate_year_year (inputs : ModelInputs) (starting_salary : ℚ)
    (graduation_year current_year : ℤ) (baseline_debt reform_debt : ℚ) :
    (simulate_year inputs starting_salary graduation_year current_year baseline_debt
        reform_debt).1.year = current_year := rfl

theorem simulate_year_retired (inputs : ModelInputs) (starting_salary : ℚ)
    (graduation_year current_year : ℤ) (baseline_debt reform_debt : ℚ)
    (h : inputs.retirement_age < 22 + (current_year - graduation_year)) :
    (simulate_year inputs starting_salary graduation_year current_year baseline_debt
        reform_debt).1.employment_income = 0 ∧
      (simulate_year inputs starting_salary graduation_year current_year baseline_debt
        reform_debt).1.gross_income = get_state_pension current_year := by
  simp only [simulate_year]
  rw [if_pos h]
  exact ⟨rfl, rfl⟩

theorem run_model_loop_retired (inputs : ModelInputs) (starting_salary : ℚ)
    (graduation_year : ℤ) (years : List ℤ) :
    ∀ (baseline_debt reform_debt : ℚ) (r : AnnualRecord),
      r ∈ run_model_loop inputs starting_salary graduation_year years baseline_debt
        reform_debt →
      inputs.retirement_age < r.age →
      r.employment_income = 0 ∧ r.gross_income = get_state_pension r.year := by
  induction years with
  | nil =>
    intro b d r hr
    simp [run_model_loop] at hr
  | cons y rest ih =>
    intro b d r hr hret
    rw [run_model_loop] at hr
    by_cases hskip : (22 + (y - graduation_year) < inputs.current_age
        ∨ 22 + (y - graduation_year) > inputs.life_expectancy)
    · rw [if_pos hskip] at hr
      exact ih b d r hr hret
    · rw [if_neg hskip] at hr
      rcases List.mem_cons.mp hr with hhead | htail
      · subst hhead
        rw [simulate_year_age] at hret
        obtain ⟨h1, h2⟩ := simulate_year_retired inputs starting_salary graduation_year y
          b d hret
        refine ⟨h1, ?_⟩
        rw [simulate_year_year]
        exact h2
      · exact ih _ _ r htail hret

/-- Claim C1 (amended): for every run configuration and every emitted annual
record whose age is strictly past the configured retirement age, the engine
sets employment income to zero and gross income to the looked-up /
extrapolated state-pension amount for that calendar year.  (At an age exactly
equal to the retirement age the source still treats the person as employed:
`is_retired = age > retirement_age`.) -/
theorem claim1_retirement_income (inputs : ModelInputs) (r : AnnualRecord)
    (hr : r ∈ run_model inputs) (hret : inputs.retirement_age < r.age) :
    r.employment_income = 0 ∧ r.gross_income = get_state_pension r.year := by
  simp only [run_model] at hr
  exact run_model_loop_retired inputs _ _ _ _ _ r hr hret

theorem run_model_cfgAtRetirement_eq : run_model cfgAtRetirementAge = [recAtRetirement] := by
  norm_num [run_model, cfgAtRetirementAge, run_model_loop, simulate_year, recAtRetirement,
    earnings_growth_by_age, calculate_scenario, calculate_student_loan, calculate_ni,
    get_state_pension, max_def, min_def, List.range_succ, List.range_zero,
    PEAK_EARNINGS_MULTIPLIER, PERSONAL_ALLOWANCE, BASIC_RATE_THRESHOLD,
    HIGHER_RATE_THRESHOLD, PA_TAPER_THRESHOLD, PA_TAPER_RATE, BASIC_RATE, HIGHER_RATE,
    ADDITIONAL_RATE, NI_PRIMARY_THRESHOLD, NI_UPPER_EARNINGS_LIMIT,
    STUDENT_LOAN_THRESHOLD_PLAN2, STUDENT_LOAN_FORGIVENESS_YEARS]

theorem run_model_cfgPastRetirement_eq :
    run_model cfgPastRetirementAge = [recPastRetirement] := by
  norm_num [run_model, cfgPastRetirementAge, run_model_loop, simulate_year, recPastRetirement,
    earnings_growth_by_age, calculate_scenario, calculate_student_loan, calculate_ni,
    get_state_pension, max_def, min_def, List.range_succ, List.range_zero,
    PEAK_EARNINGS_MULTIPLIER, PERSONAL_ALLOWANCE, BASIC_RATE_THRESHOLD,
    HIGHER_RATE_THRESHOLD, PA_TAPER_THRESHOLD, PA_TAPER_RATE, BASIC_RATE, HIGHER_RATE,
    ADDITIONAL_RATE, NI_PRIMARY_THRESHOLD, NI_UPPER_EARNINGS_LIMIT,
    STUDENT_LOAN_THRESHOLD_PLAN2, STUDENT_LOAN_FORGIVENESS_YEARS]

/-- Counterexample to claim C1 as stated ("at or after the retirement age"):
in `cfgAtRetirementAge` the simulated year 2026 has age 67 equal to the
retirement age, yet employment income is 100, not 0. -/
theorem claim1_counterexample :
    ¬ (∀ (inputs : ModelInputs) (r : AnnualRecord), r ∈ run_model inputs →
        inputs.retirement_age ≤ r.age →
        r.employment_income = 0 ∧ r.gross_income = get_state_pension r.year) := by
  intro hclaim
  have hmem : recAtRetirement ∈ run_model cfgAtRetirementAge := by
    rw [run_model_cfgAtRetirement_eq]
    exact List.mem_singleton.mpr rfl
  have hage : cfgAtRetirementAge.retirement_age ≤ recAtRetirement.age := by decide
  have h1 := (hclaim cfgAtRetirementAge recAtRetirement hmem hage).1
  have h2 : recAtRetirement.employment_income = 100 := rfl
  rw [h2] at h1
  exact absurd h1 (by norm_num)

/-- Witness for the amended claim C1 at a concrete configuration. -/
theorem claim1_witness :
    recPastRetirement ∈ run_model cfgPastRetirementAge ∧
      cfgPastRetirementAge.retirement_age < recPastRetirement.age ∧
      recPastRetirement.employment_income = 0 ∧
      recPastRetirement.gross_income = get_state_pension recPastRetirement.year :=
  ⟨by rw [run_model_cfgPastRetirement_eq]; exact List.mem_singleton.mpr rfl,
    by decide,
    (claim1_retirement_income cfgPastRetirementAge recPastRetirement
      (by rw [run_model_cfgPastRetirement_eq]; exact List.mem_singleton.mpr rfl)
      (by decide)).1,
    (claim1_retirement_income cfgPastRetirementAge recPastRetirement
      (by rw [run_model_cfgPastRetirement_eq]; exact List.mem_singleton.mpr rfl)
      (by decide)).2⟩
